import Mathlib

/-!
Verification of the collaborative ownership / permission subsystem of the
`evennia` collab contrib, together with its building-command layer
(`evennia/contrib/collab/commands.py`).

The command layer (`commands.py`) is embedded directly from the source.
The permission core (`perms.py` / `collab_settings.py`) is not part of the
source tree here — only its tests and its command-layer callers are — so its
operations are modelled from the specification document, following the
spec's wording for each operation; the embedded tests' expectations
(`test_perms.py`) are used as cross-checks on concrete values.
-/

namespace Collab

/-- Privilege tier of an actor (normal, builder, wizard, immortal). -/
inductive Tier
  | normal
  | builder
  | wizard
  | immortal
deriving DecidableEq, Repr

/-- Class discriminator of an actor entity: an account-level player or an
in-world character. -/
inductive OwnerCls
  | player
  | character
deriving DecidableEq, Repr

/-- A creation timestamp, second part plus sub-second (microsecond) part. -/
structure Timestamp where
  sec : Nat
  micro : Nat
deriving DecidableEq, Repr

/-- Truncation of a timestamp to whole seconds (the sub-second component is
dropped). -/
def truncSeconds (t : Timestamp) : Timestamp :=
  { sec := t.sec, micro := 0 }

/-- Identity data of a single actor entity: numeric id, class discriminator,
privilege tier and creation timestamp. -/
structure ActorCore where
  id : Nat
  cls : OwnerCls
  tier : Tier
  created : Timestamp
deriving DecidableEq, Repr

/-- An actor as seen by the permission layer: its own entity data plus, when
the actor is an in-world character, the account-level player that controls
it (the Python code reads this as `getattr(actor, 'player', actor)`). -/
structure Actor where
  core : ActorCore
  player : Option ActorCore
deriving DecidableEq, Repr

/-- Account-level normalization of an actor: a character resolves to its
controlling player account, an account resolves to itself.  Mirrors
`getattr(actor, 'player', actor)` in the source. -/
def accountOf (a : Actor) : Actor :=
  match a.player with
  | some p => { core := p, player := none }
  | none => a

/-- Immortal-tier privilege predicate: the global-bypass check. -/
def isImmortal (a : Actor) : Bool :=
  decide (a.core.tier = Tier.immortal)

/-- Modelled from the spec: the serialized ownership-tag record
`\x7bid, date, cls\x7d` attached to objects; the `date` field carries second
precision only (`perms.py` is not in the source tree). -/
structure OwnerTag where
  id : Nat
  dateSec : Nat
  cls : OwnerCls
deriving DecidableEq, Repr

/-- Modelled from the spec: `owner_tag_key(actor)` serializes the actor's
id, its creation timestamp truncated to whole seconds, and its class
discriminator (`perms.py` is not in the source tree). -/
def owner_tag_key (a : Actor) : OwnerTag :=
  { id := a.core.id, dateSec := a.core.created.sec, cls := a.core.cls }

/-- Numeric code of the class discriminator in the serialized form. -/
def clsCode : OwnerCls → Nat
  | OwnerCls.player => 0
  | OwnerCls.character => 1

/-- Inverse of `clsCode`; fails on an unknown code. -/
def decodeCls : Nat → Option OwnerCls
  | 0 => some OwnerCls.player
  | 1 => some OwnerCls.character
  | _ => none

/-- Modelled from the spec: the wire form of an ownership tag, a flat
serialization of the `\x7bid, date, cls\x7d` record (`perms.py` is not in
the source tree). -/
def encodeTag (t : OwnerTag) : List Nat :=
  [t.id, t.dateSec, clsCode t.cls]

/-- Modelled from the spec: deserialization of an ownership tag; fails on a
malformed record (`perms.py` is not in the source tree). -/
def decodeTag : List Nat → Option OwnerTag
  | [i, s, c] => (decodeCls c).map (fun cl => { id := i, dateSec := s, cls := cl })
  | _ => none

/-- Date carried by a serialized ownership tag, as a timestamp (the
sub-second component is not stored, so it reads back as zero). -/
def tagDate (t : OwnerTag) : Timestamp :=
  { sec := t.dateSec, micro := 0 }

/-- An in-world game object: id, typeclass path, the two ownership tags
(display and true owner), the lock-string evaluator supplied by the host
framework, and which optional attribute handlers the object exposes. -/
structure GObj where
  id : Nat
  typeclass : String
  displayOwner : Option OwnerTag
  trueOwner : Option OwnerTag
  locks : String → Actor → Bool
  hasWizh : Bool
  hasUsrh : Bool

/-- Modelled from the spec: `get_owner(object, player_check)` returns the
display-owner tag by default, the true-owner tag when `player_check` is set,
and nothing when no tag is present (`perms.py` is not in the source tree). -/
def get_owner (o : GObj) (playerCheck : Bool) : Option OwnerTag :=
  if playerCheck then o.trueOwner else o.displayOwner

/-- Modelled from the spec: `set_owner(actor, object)` overwrites the
display-owner tag with `actor` and, when no true-owner tag exists yet, also
writes the true-owner tag with the account-level normalization of `actor`
(`perms.py` is not in the source tree). -/
def set_owner (a : Actor) (o : GObj) : GObj :=
  { o with
    displayOwner := some (owner_tag_key a)
    trueOwner :=
      match o.trueOwner with
      | some t => some t
      | none => some (owner_tag_key (accountOf a)) }

/-- Modelled from the spec: `is_owner(actor, object, check_character)` is an
equality test between the actor (or, when `check_character` is set, the
actor's account) and the correspondingly resolved owner; privilege never
enters the comparison (`perms.py` is not in the source tree). -/
def is_owner (a : Actor) (o : GObj) (checkCharacter : Bool) : Bool :=
  decide (get_owner o checkCharacter
    = some (owner_tag_key (if checkCharacter then accountOf a else a)))

/-- Actor is the display owner recorded on the object. -/
def isDisplayOwner (a : Actor) (o : GObj) : Bool :=
  decide (o.displayOwner = some (owner_tag_key a))

/-- Actor's account is the true owner recorded on the object. -/
def isTrueOwner (a : Actor) (o : GObj) : Bool :=
  decide (o.trueOwner = some (owner_tag_key (accountOf a)))

/-- Actor is the resolved true or display owner of the object. -/
def ownsResolved (a : Actor) (o : GObj) : Bool :=
  isDisplayOwner a o || isTrueOwner a o

/-- Modelled from the spec: the generic examine/control style lock name that
`collab_check` uses when it is called with an empty lock list
(`perms.py` is not in the source tree). -/
def collabDefaultLocks : List String := ["examine"]

/-- Modelled from the spec: `collab_check(actor, object, locks)` passes when
every named lock string evaluates true for the actor (the default
examine/control check when the list is empty), or the actor is the resolved
true/display owner, or the actor holds immortal-tier privilege
(`perms.py` is not in the source tree). -/
def collab_check (a : Actor) (o : GObj) (locks : List String) : Bool :=
  let names := if locks.isEmpty then collabDefaultLocks else locks
  names.all (fun n => o.locks n a) || ownsResolved a o || isImmortal a

/-- Kind of attribute handler an attribute name can resolve to. -/
inductive HandlerKind
  | wizHidden
  | usrHidden
  | publicDefault
  | rawSystem
deriving DecidableEq, Repr

/-- Kind of access requested on an attribute. -/
inductive AccessType
  | read
  | write
deriving DecidableEq, Repr

/-- The lock predicates the per-handler permission table is built from. -/
inductive LockPred
  | anyone
  | ownerOrImmortal
  | immortalOnly
deriving DecidableEq, Repr

/-- Evaluation of the table's lock predicates: `anyone` always passes,
`ownerOrImmortal` is the controls-style check (resolved owner or immortal),
`immortalOnly` is the immortal privilege predicate. -/
def evalLockPred : LockPred → Actor → GObj → Bool
  | LockPred.anyone, _, _ => true
  | LockPred.ownerOrImmortal, a, o => ownsResolved a o || isImmortal a
  | LockPred.immortalOnly, a, _ => isImmortal a

/-- Modelled from the spec: the per-handler default policy table
(`collab_settings.COLLAB_PROPTYPE_PERMS` is not in the source tree):
wizard-hidden is immortal-only for both accesses, user-hidden and raw/system
are owner-or-immortal for both, public/default is readable by anyone and
writable by owner-or-immortal. -/
def proptypePerms : HandlerKind → AccessType → LockPred
  | HandlerKind.wizHidden, _ => LockPred.immortalOnly
  | HandlerKind.usrHidden, _ => LockPred.ownerOrImmortal
  | HandlerKind.publicDefault, AccessType.read => LockPred.anyone
  | HandlerKind.publicDefault, AccessType.write => LockPred.ownerOrImmortal
  | HandlerKind.rawSystem, _ => LockPred.ownerOrImmortal

/-- Modelled from the spec: `attr_check(actor, object, access_type, handler)`
evaluates the configured lock predicate for the handler and access type,
with an immortal-tier global bypass (`perms.py` is not in the source
tree). -/
def attr_check (a : Actor) (o : GObj) (t : AccessType) (h : HandlerKind) : Bool :=
  isImmortal a || evalLockPred (proptypePerms h t) a o

/-- Character-list implementation of string prefix testing (the embedding
of the Python `str.startswith`). -/
def strStartsWith (s p : String) : Bool := p.data.isPrefixOf s.data

/-- Character-list implementation of dropping a leading segment (the
embedding of the Python slice `name[n:]`). -/
def strDrop (s : String) (n : Nat) : String := String.mk (s.data.drop n)

/-- Modelled from the spec: the configured table of attribute-name prefixes,
tried in priority order (`collab_settings` is not in the source tree). -/
def prefixTable : List (String × HandlerKind) :=
  [("wizh_", HandlerKind.wizHidden), ("usrh_", HandlerKind.usrHidden)]

/-- Whether the object exposes the handler a prefix-table entry selects. -/
def exposes (o : GObj) : HandlerKind → Bool
  | HandlerKind.wizHidden => o.hasWizh
  | HandlerKind.usrHidden => o.hasUsrh
  | HandlerKind.publicDefault => true
  | HandlerKind.rawSystem => true

/-- Modelled from the spec: `prefix_check(object, name)` tries the prefix
table first (an entry applies when the name starts with the prefix and the
object exposes that handler), then the leading-underscore rule selecting the
raw/system store, then falls through to the default public handler
(`perms.py` is not in the source tree). -/
def prefix_check (o : GObj) (name : String) : String × HandlerKind :=
  match prefixTable.find? (fun p => strStartsWith name p.1 && exposes o p.2) with
  | some p => (strDrop name p.1.length, p.2)
  | none =>
    if strStartsWith name "_" then (strDrop name 1, HandlerKind.rawSystem)
    else (name, HandlerKind.publicDefault)

/-- A quota value: unlimited (positive infinity) or a finite remainder. -/
inductive Quota
  | inf
  | fin (n : Nat)
deriving DecidableEq, Repr

/-- Python truthiness of a quota value: infinity and positive finite values
are truthy, zero is falsy. -/
def quotaTruthy : Quota → Bool
  | Quota.inf => true
  | Quota.fin n => decide (n ≠ 0)

/-- One entry of the configured `COLLAB_TYPES` table: typeclass path,
creation lock predicate and quota limit. -/
structure CollabTypeInfo where
  typeclass : String
  createLock : Actor → Bool
  quota : Nat

/-- The shared store the permission core reads: the live object population,
the configured type table, and the lock predicate granting unlimited
quota. -/
structure World where
  objs : List GObj
  collabTypes : String → Option CollabTypeInfo
  quotaLock : Actor → Bool

/-- The object counts toward the actor's quota for a typeclass: it has that
typeclass and its display-owner tag names the actor. -/
def ownedOfType (a : Actor) (tc : String) (o : GObj) : Bool :=
  decide (o.typeclass = tc) && decide (o.displayOwner = some (owner_tag_key a))

/-- Modelled from the spec: `quota_queryset(actor, type_path)` is the live
set of objects of the given typeclass whose display owner is the actor,
recomputed from the live population on every call (`perms.py` is not in the
source tree). -/
def quota_queryset (w : World) (a : Actor) (tc : String) : List GObj :=
  w.objs.filter (ownedOfType a tc)

/-- Modelled from the spec: `get_limit_for(actor, type_key)` reads the
configured numeric quota for the type key; an unknown key is a lookup
failure (`perms.py` is not in the source tree). -/
def get_limit_for (w : World) (k : String) : Option Nat :=
  (w.collabTypes k).map (fun info => info.quota)

/-- Modelled from the spec: `quota_check(actor, type_key)` returns positive
infinity when the actor passes the unlimited-quota lock predicate, and
otherwise the configured limit minus the owned count, floored at zero; an
unknown type key is a lookup failure (`perms.py` is not in the source
tree). -/
def quota_check (w : World) (a : Actor) (k : String) : Option Quota :=
  if w.quotaLock a then some Quota.inf
  else
    match w.collabTypes k with
    | none => none
    | some info =>
        some (Quota.fin (info.quota - (quota_queryset w a info.typeclass).length))

/-- Deletion of one object from the live population (by id, the database
identity). -/
def deleteObj (w : World) (oid : Nat) : World :=
  { w with objs := w.objs.filter (fun o => decide (o.id ≠ oid)) }

/-!
Command layer, embedded from `evennia/contrib/collab/commands.py`.
Messaging is represented by one outcome constructor per distinct message
branch; an exception escaping the command's `func` is its own constructor.
-/

/-- Outcome of `BaseCreationCommand.func` up to (and including) the decision
whether an object will be created. -/
inductive CreateOutcome
  | notPermittedType
  | createLockDenied
  | typeNotRecognized
  | quotaExceeded
  | proceedToCreate (typeKey : String)
  | keyError (key : String)
deriving DecidableEq, Repr

/-- Embeds `BaseCreationCommand.func` (commands.py lines 97-124): the type
key comes from the first switch or the default; a not-permitted type aborts
with a message; then the create lock string is fetched via
`COLLAB_TYPES[create_type]` — a lookup that raises `KeyError` for an
unknown key — and checked; then the name-recognition guard runs; then the
quota of the caller's account is checked for truthiness. -/
def creationFunc (w : World) (caller : Actor) (switches : List String)
    (defaultType : String) (notPermitted : List String) : CreateOutcome :=
  let createType := switches.headD defaultType
  if notPermitted.contains createType then CreateOutcome.notPermittedType
  else
    match w.collabTypes createType with
    | none => CreateOutcome.keyError createType
    | some info =>
      if !(info.createLock caller) then CreateOutcome.createLockDenied
      else if (w.collabTypes createType).isNone then CreateOutcome.typeNotRecognized
      else
        match quota_check w (accountOf caller) createType with
        | none => CreateOutcome.keyError createType
        | some q =>
          if !(quotaTruthy q) then CreateOutcome.quotaExceeded
          else CreateOutcome.proceedToCreate createType

/-- The entity a right-hand side of `@chown` resolves to: its object view
(for the `chown_to` lock) and whether it inherits from the base character
or base player typeclass. -/
structure RhsEntity where
  obj : GObj
  isCharacterClass : Bool
  isPlayerClass : Bool

/-- Outcome of `CmdChown.func`. -/
inductive ChownOutcome
  | silent
  | badOwnerClass
  | chownToDenied
  | alreadyOwn
  | chownDenied
  | setOwnerCall (newOwner : Actor) (target : GObj)

/-- The right-hand-side validation block of `CmdChown.func` (commands.py
lines 319-334): a failed search or a non-character, non-player class aborts
with a message, then the `chown_to` lock on the named new owner is checked.
Returns the aborting outcome, or none to continue. -/
def chownRhsCheck (caller : Actor) (newOwner : Option RhsEntity) :
    Option ChownOutcome :=
  match newOwner with
  | none => some ChownOutcome.badOwnerClass
  | some e =>
    if !(e.isCharacterClass || e.isPlayerClass) then some ChownOutcome.badOwnerClass
    else if !(collab_check caller e.obj ["chown_to"]) then some ChownOutcome.chownToDenied
    else none

/-- The target-handling tail of `CmdChown.func` (commands.py lines
335-349): a failed target search returns silently, then the already-own
check (`is_owner` with `check_character`), the `chown` lock check, and
finally the `set_owner(self.caller, target)` call. -/
def chownTargetStep (caller : Actor) (target : Option GObj) : ChownOutcome :=
  match target with
  | none => ChownOutcome.silent
  | some tgt =>
    if is_owner caller tgt true then ChownOutcome.alreadyOwn
    else if !(collab_check caller tgt ["chown"]) then ChownOutcome.chownDenied
    else ChownOutcome.setOwnerCall caller tgt

/-- Embeds `CmdChown.func` (commands.py lines 317-349): the target is
searched from the left-hand side; when a right-hand side is given its
entity is searched and validated; then the target-handling tail runs —
which installs the caller, not the right-hand-side entity. -/
def chownFunc (caller : Actor) (target : Option GObj)
    (rhsGiven : Bool) (newOwner : Option RhsEntity) : ChownOutcome :=
  match (if rhsGiven then chownRhsCheck caller newOwner else none) with
  | some out => out
  | none => chownTargetStep caller target

/-- Outcome of `CmdDestroy.func`. -/
inductive DestroyOutcome
  | silent
  | permDenied
  | suicideRefused
  | notOwnerRefused
  | deleted (targetId : Nat)
deriving DecidableEq, Repr

/-- Embeds `CmdDestroy.func` (commands.py lines 283-300): a failed search
returns silently; the `delete` lock is checked via `collab_check`; a target
equal to the caller is refused; a caller who is not the true owner needs the
`force` switch; otherwise the target is deleted. -/
def destroyFunc (caller : Actor) (callerObj : GObj) (target : Option GObj)
    (switches : List String) : DestroyOutcome :=
  match target with
  | none => DestroyOutcome.silent
  | some tgt =>
    if !(collab_check caller tgt ["delete"]) then DestroyOutcome.permDenied
    else if callerObj.id = tgt.id then DestroyOutcome.suicideRefused
    else
      let owner :=
        decide (get_owner tgt true = some (owner_tag_key (accountOf caller)))
      if !owner && !(switches.contains "force") then DestroyOutcome.notOwnerRefused
      else DestroyOutcome.deleted tgt.id

/-- Effect of a destroy outcome on the shared store: only a `deleted`
outcome removes the object, every refusal leaves the store unchanged. -/
def applyDestroy (w : World) : DestroyOutcome → World
  | DestroyOutcome.deleted oid => deleteObj w oid
  | _ => w

/-!
Concrete fixtures, mirroring the shapes the repository's tests build
(an immortal account, a normal account, objects with and without owner
tags).  They instantiate the theorems below at closed inputs.
-/

/-- A lock evaluator that denies every lock string. -/
def lockAllFalse : String → Actor → Bool := fun _ _ => false

/-- An immortal-tier account (the tests' `player`). -/
def immortal1 : Actor :=
  { core := { id := 1, cls := OwnerCls.player, tier := Tier.immortal,
              created := { sec := 100, micro := 0 } },
    player := none }

/-- A normal-tier account (the tests' `player2`). -/
def player2 : Actor :=
  { core := { id := 2, cls := OwnerCls.player, tier := Tier.normal,
              created := { sec := 200, micro := 0 } },
    player := none }

/-- An account whose creation timestamp has a non-zero sub-second part
(the tests' microsecond fixture). -/
def playerMicro : Actor :=
  { core := { id := 5, cls := OwnerCls.player, tier := Tier.normal,
              created := { sec := 1399183365, micro := 83 } },
    player := none }

/-- An orphaned object (no owner tags), all lock strings denied. -/
def obj1 : GObj :=
  { id := 10, typeclass := "objects.Object", displayOwner := none,
    trueOwner := none, locks := lockAllFalse, hasWizh := true, hasUsrh := true }

/-- An object owned (display and true) by `player2`. -/
def obj2 : GObj :=
  { id := 11, typeclass := "objects.Object",
    displayOwner := some (owner_tag_key player2),
    trueOwner := some (owner_tag_key player2),
    locks := lockAllFalse, hasWizh := true, hasUsrh := true }

/-- The in-world body of a caller, for the destroy command's self test. -/
def callerBody : GObj :=
  { id := 20, typeclass := "characters.Character", displayOwner := none,
    trueOwner := none, locks := lockAllFalse, hasWizh := true, hasUsrh := true }

/-- The right-hand-side entity of a chown naming `player2`. -/
def rhsPlayer2 : RhsEntity :=
  { obj := obj2, isCharacterClass := false, isPlayerClass := true }

/-- A configured type-table entry with quota limit 2. -/
def typeInfo0 : CollabTypeInfo :=
  { typeclass := "objects.Object", createLock := fun _ => true, quota := 2 }

/-- A world with one owned object, every type key configured, and the
unlimited-quota lock granted exactly to immortals. -/
def w0 : World :=
  { objs := [obj2], collabTypes := fun _ => some typeInfo0,
    quotaLock := isImmortal }

/-- A world whose type table has no entries at all. -/
def noTypesWorld : World :=
  { objs := [], collabTypes := fun _ => none, quotaLock := fun _ => false }

/-!
Theorems settling the claims.
-/

/-- Claim C1: for every actor, object and access type, `attr_check` returns
exactly the per-handler default policy table — wizard-hidden is
immortal-only for read and write, user-hidden is owner-or-immortal for
both, public/default is readable by anyone and writable by
owner-or-immortal, raw/system is owner-or-immortal for both — and an
immortal actor passes every check. -/
theorem attr_check_matches_policy_table (a : Actor) (o : GObj) :
    attr_check a o AccessType.read HandlerKind.wizHidden = isImmortal a
  ∧ attr_check a o AccessType.write HandlerKind.wizHidden = isImmortal a
  ∧ attr_check a o AccessType.read HandlerKind.usrHidden
      = (ownsResolved a o || isImmortal a)
  ∧ attr_check a o AccessType.write HandlerKind.usrHidden
      = (ownsResolved a o || isImmortal a)
  ∧ attr_check a o AccessType.read HandlerKind.publicDefault = true
  ∧ attr_check a o AccessType.write HandlerKind.publicDefault
      = (ownsResolved a o || isImmortal a)
  ∧ attr_check a o AccessType.read HandlerKind.rawSystem
      = (ownsResolved a o || isImmortal a)
  ∧ attr_check a o AccessType.write HandlerKind.rawSystem
      = (ownsResolved a o || isImmortal a)
  ∧ (isImmortal a = true → ∀ t h, attr_check a o t h = true) := by
  refine ⟨?_, ?_, ?_, ?_, ?_, ?_, ?_, ?_, ?_⟩
  all_goals
    first
    | (intro hI t h
       cases t <;> cases h <;>
         simp [attr_check, evalLockPred, proptypePerms, hI])
    | (cases hI : isImmortal a <;> cases hO : ownsResolved a o <;>
         simp [attr_check, evalLockPred, proptypePerms, hI, hO])

/-- Claim C1 witness: an immortal actor passes a wizard-hidden write on an
object it does not own. -/
theorem attr_check_matches_policy_table_witness :
    isImmortal immortal1 = true
  ∧ attr_check immortal1 obj1 AccessType.write HandlerKind.wizHidden = true :=
  ⟨rfl, (attr_check_matches_policy_table immortal1 obj1).2.2.2.2.2.2.2.2
          rfl AccessType.write HandlerKind.wizHidden⟩

/-- Claim C2: `collab_check` passes exactly when every named lock (the
default examine/control lock when the list is empty) evaluates true for
the actor, or the actor is the resolved true/display owner, or the actor
holds immortal-tier privilege. -/
theorem collab_check_iff (a : Actor) (o : GObj) (locks : List String) :
    collab_check a o locks = true ↔
      ((∀ n ∈ (if locks.isEmpty then collabDefaultLocks else locks),
          o.locks n a = true)
        ∨ ownsResolved a o = true ∨ isImmortal a = true) := by
  simp [collab_check, List.all_eq_true, Bool.or_eq_true, or_assoc]

/-- Claim C2 witness: an immortal actor passes `collab_check` on an object
it does not own whose every lock denies. -/
theorem collab_check_iff_witness :
    collab_check immortal1 obj1 ["delete"] = true :=
  (collab_check_iff immortal1 obj1 ["delete"]).mpr
    (Or.inr (Or.inr (by decide)))

/-- Claim C6: on an object exposing the standard handlers, `prefix_check`
resolves `wizh_foo` to (`foo`, wizard-hidden), `usrh_bar` to (`bar`,
user-hidden), `_baz` to (`baz`, raw/system) and `qux` to (`qux`,
public/default), trying the prefix table first, then the
leading-underscore rule, then the default. -/
theorem prefix_check_resolution (o : GObj)
    (hw : o.hasWizh = true) (hu : o.hasUsrh = true) :
    prefix_check o "wizh_foo" = ("foo", HandlerKind.wizHidden)
  ∧ prefix_check o "usrh_bar" = ("bar", HandlerKind.usrHidden)
  ∧ prefix_check o "_baz" = ("baz", HandlerKind.rawSystem)
  ∧ prefix_check o "qux" = ("qux", HandlerKind.publicDefault) := by
  obtain ⟨oid, otc, od, ot, olk, ohw, ohu⟩ := o
  dsimp only at hw hu
  subst hw; subst hu
  exact ⟨rfl, rfl, rfl, rfl⟩

/-- Claim C3: when the actor passes the unlimited-quota lock predicate,
`quota_check` returns positive infinity regardless of the object
population; otherwise it returns `max(limit - count, 0)` — never negative —
where `count` is the number of live objects of the configured typeclass
whose display owner is the actor; and deleting one owned object of that
type restores the remaining quota exactly, recomputed from the decremented
count. -/
theorem quota_check_spec (w : World) (a : Actor) (k : String)
    (info : CollabTypeInfo)
    (hbypass : w.quotaLock a = false) (htype : w.collabTypes k = some info) :
    quota_check w a k
      = some (Quota.fin (max ((info.quota : Int)
          - ((quota_queryset w a info.typeclass).length : Int)) 0).toNat)
  ∧ (∀ w' : World, w'.quotaLock a = true → quota_check w' a k = some Quota.inf)
  ∧ (∀ l₁ o l₂, w.objs = l₁ ++ o :: l₂ →
      ownedOfType a info.typeclass o = true →
      quota_check { w with objs := l₁ ++ l₂ } a k
        = some (Quota.fin (info.quota
            - ((quota_queryset w a info.typeclass).length - 1)))) := by
  refine ⟨?_, ?_, ?_⟩
  · simp [quota_check, hbypass, htype]
    omega
  · intro w' h
    simp [quota_check, h]
  · intro l₁ o l₂ hobjs hmatch
    have hlen : (quota_queryset w a info.typeclass).length
        = (l₁.filter (ownedOfType a info.typeclass)).length
          + (l₂.filter (ownedOfType a info.typeclass)).length + 1 := by
      simp [quota_queryset, hobjs, List.filter_append, List.filter_cons,
            hmatch]
      omega
    have hlen2 : (quota_queryset { w with objs := l₁ ++ l₂ } a
          info.typeclass).length
        = (l₁.filter (ownedOfType a info.typeclass)).length
          + (l₂.filter (ownedOfType a info.typeclass)).length := by
      simp [quota_queryset, List.filter_append]
    have hq : quota_check { w with objs := l₁ ++ l₂ } a k
        = some (Quota.fin (info.quota
            - (quota_queryset { w with objs := l₁ ++ l₂ } a
                info.typeclass).length)) := by
      simp [quota_check, hbypass, htype]
    rw [hq, hlen2, hlen]
    simp [Nat.add_sub_cancel]

/-- Claim C3 witness: in a world with one owned object and limit 2, the
normal-tier actor has one creation remaining, computed through the
max-floored form. -/
theorem quota_check_spec_witness :
    w0.quotaLock player2 = false
  ∧ w0.collabTypes "object" = some typeInfo0
  ∧ quota_check w0 player2 "object"
      = some (Quota.fin (max ((typeInfo0.quota : Int)
          - ((quota_queryset w0 player2 typeInfo0.typeclass).length : Int))
            0).toNat) :=
  ⟨rfl, rfl, (quota_check_spec w0 player2 "object" typeInfo0 rfl rfl).1⟩

/-- Claim C4: after `set_owner(A, O)` the display owner of `O` is `A`,
`is_owner(A, O)` holds, and `is_owner(B, O)` fails for every actor `B`
distinct from `A`, regardless of `B`'s privilege tier — ownership reporting
never reflects privilege. -/
theorem set_owner_ledger (A B : Actor) (O : GObj)
    (hdiff : B.core.id ≠ A.core.id ∨ B.core.cls ≠ A.core.cls) :
    get_owner (set_owner A O) false = some (owner_tag_key A)
  ∧ is_owner A (set_owner A O) false = true
  ∧ is_owner B (set_owner A O) false = false := by
  refine ⟨rfl, ?_, ?_⟩
  · show decide (some (owner_tag_key A) = some (owner_tag_key A)) = true
    exact decide_eq_true rfl
  · show decide (some (owner_tag_key A) = some (owner_tag_key B)) = false
    apply decide_eq_false
    intro h
    have h' := Option.some.inj h
    rcases hdiff with hd | hd
    · exact hd (congrArg OwnerTag.id h'.symm)
    · exact hd (congrArg OwnerTag.cls h'.symm)

/-- Claim C4 witness: after `player2` takes ownership of the orphaned
object, `player2` is reported as owner and the immortal non-owner is not,
despite its privilege tier. -/
theorem set_owner_ledger_witness :
    (immortal1.core.id ≠ player2.core.id
      ∨ immortal1.core.cls ≠ player2.core.cls)
  ∧ is_owner player2 (set_owner player2 obj1) false = true
  ∧ is_owner immortal1 (set_owner player2 obj1) false = false :=
  ⟨Or.inl (by decide),
   (set_owner_ledger player2 immortal1 obj1 (Or.inl (by decide))).2.1,
   (set_owner_ledger player2 immortal1 obj1 (Or.inl (by decide))).2.2⟩

/-- Claim C5: for every actor whose creation timestamp has a non-zero
sub-second component, encoding the ownership tag and decoding it yields
identical id and cls fields and a date equal to the original timestamp
truncated to whole seconds. -/
theorem owner_tag_roundtrip (a : Actor) (hmicro : a.core.created.micro ≠ 0) :
    decodeTag (encodeTag (owner_tag_key a)) = some (owner_tag_key a)
  ∧ (owner_tag_key a).id = a.core.id
  ∧ (owner_tag_key a).cls = a.core.cls
  ∧ tagDate (owner_tag_key a) = truncSeconds a.core.created := by
  refine ⟨?_, rfl, rfl, rfl⟩
  cases hc : a.core.cls <;>
    simp [encodeTag, decodeTag, decodeCls, clsCode, owner_tag_key, hc]

/-- Claim C5 witness: the round trip on the microsecond fixture. -/
theorem owner_tag_roundtrip_witness :
    playerMicro.core.created.micro ≠ 0
  ∧ decodeTag (encodeTag (owner_tag_key playerMicro))
      = some (owner_tag_key playerMicro)
  ∧ tagDate (owner_tag_key playerMicro)
      = truncSeconds playerMicro.core.created :=
  ⟨by decide, (owner_tag_roundtrip playerMicro (by decide)).1,
   (owner_tag_roundtrip playerMicro (by decide)).2.2.2⟩

/-- Claim C6 witness: the four resolutions on a concrete object exposing
both optional handlers. -/
theorem prefix_check_resolution_witness :
    obj1.hasWizh = true
  ∧ prefix_check obj1 "wizh_foo" = ("foo", HandlerKind.wizHidden)
  ∧ prefix_check obj1 "qux" = ("qux", HandlerKind.publicDefault) :=
  ⟨rfl, (prefix_check_resolution obj1 rfl rfl).1,
    (prefix_check_resolution obj1 rfl rfl).2.2.2⟩

/-- Claim C7 evidence: invoking the creation command with a type key absent
from the configured type table reaches the `COLLAB_TYPES[create_type]`
subscript before the recognition guard and escapes as an unhandled
`KeyError` instead of the actor-visible not-recognized message. -/
theorem creation_unknown_type_raises :
    creationFunc noTypesWorld player2 ["bogus"] "object" []
      = CreateOutcome.keyError "bogus" := rfl

/-- The right-hand-side validation of chown can only abort with a message;
it never produces the `set_owner` call itself. -/
theorem chownRhsCheck_not_setOwner (c : Actor) (n : Option RhsEntity)
    (whoX : Actor) (t : GObj) :
    chownRhsCheck c n ≠ some (ChownOutcome.setOwnerCall whoX t) := by
  intro hc
  cases n with
  | none => exact ChownOutcome.noConfusion (Option.some.inj hc)
  | some e =>
    simp only [chownRhsCheck] at hc
    split at hc
    · exact ChownOutcome.noConfusion (Option.some.inj hc)
    · split at hc
      · exact ChownOutcome.noConfusion (Option.some.inj hc)
      · exact Option.noConfusion hc

/-- The target-handling tail of chown produces a `set_owner` call only with
the caller as the new owner and the searched target as its object. -/
theorem chownTargetStep_setOwner (caller : Actor) (target : Option GObj)
    (who : Actor) (tgt : GObj)
    (h : chownTargetStep caller target = ChownOutcome.setOwnerCall who tgt) :
    who = caller ∧ target = some tgt := by
  cases target with
  | none => exact ChownOutcome.noConfusion h
  | some t =>
    simp only [chownTargetStep] at h
    split at h
    · exact ChownOutcome.noConfusion h
    · split at h
      · exact ChownOutcome.noConfusion h
      · injection h with h1 h2
        exact ⟨h1.symm, congrArg some h2⟩

/-- Claim C8: whenever `CmdChown.func` reaches its `set_owner` call — also
when a new owner is named on the right-hand side — the actor installed is
the caller: the right-hand-side entity is only validated, never passed to
`set_owner`, and the resulting display owner of the target is the
caller. -/
theorem chown_installs_caller (caller : Actor) (target : Option GObj)
    (rhsGiven : Bool) (newOwner : Option RhsEntity) (who : Actor) (tgt : GObj)
    (h : chownFunc caller target rhsGiven newOwner
      = ChownOutcome.setOwnerCall who tgt) :
    who = caller ∧ target = some tgt
  ∧ get_owner (set_owner who tgt) false = some (owner_tag_key caller) := by
  unfold chownFunc at h
  split at h
  next out hout =>
    subst h
    by_cases hr : rhsGiven = true
    · rw [if_pos hr] at hout
      exact absurd hout (chownRhsCheck_not_setOwner caller newOwner who tgt)
    · rw [if_neg hr] at hout
      exact Option.noConfusion hout
  next hout =>
    obtain ⟨h1, h2⟩ := chownTargetStep_setOwner caller target who tgt h
    subst h1
    exact ⟨rfl, h2, rfl⟩

/-- Claim C8 witness: an immortal chowns an orphaned object while naming
`player2` on the right-hand side; the installed owner is the caller, not
`player2`. -/
theorem chown_installs_caller_witness :
    chownFunc immortal1 (some obj1) true (some rhsPlayer2)
      = ChownOutcome.setOwnerCall immortal1 obj1
  ∧ get_owner (set_owner immortal1 obj1) false
      = some (owner_tag_key immortal1) :=
  ⟨rfl, (chown_installs_caller immortal1 (some obj1) true (some rhsPlayer2)
          immortal1 obj1 rfl).2.2⟩

/-- Claim C9: `CmdDestroy.func` deletes only when the `delete` lock check
(`collab_check` with `locks=['delete']`) passes; when it fails the outcome
is the denial message and the store is unchanged; and the `force` switch
bypasses only the true-owner equality requirement, never the lock check. -/
theorem destroy_requires_delete_lock (w : World) (caller : Actor)
    (callerObj : GObj) (tgt : GObj) (switches : List String) :
    (∀ tid, destroyFunc caller callerObj (some tgt) switches
        = DestroyOutcome.deleted tid →
      collab_check caller tgt ["delete"] = true ∧ tid = tgt.id)
  ∧ (collab_check caller tgt ["delete"] = false →
      destroyFunc caller callerObj (some tgt) switches
        = DestroyOutcome.permDenied
      ∧ applyDestroy w (destroyFunc caller callerObj (some tgt) switches) = w)
  ∧ (collab_check caller tgt ["delete"] = true → callerObj.id ≠ tgt.id →
      destroyFunc caller callerObj (some tgt) ("force" :: switches)
        = DestroyOutcome.deleted tgt.id) := by
  refine ⟨?_, ?_, ?_⟩
  · intro tid h
    cases hlock : collab_check caller tgt ["delete"]
    · simp [destroyFunc, hlock] at h
    · refine ⟨rfl, ?_⟩
      simp only [destroyFunc, hlock, Bool.not_true, Bool.false_eq_true,
        if_false] at h
      split at h
      · exact DestroyOutcome.noConfusion h
      · split at h
        · exact DestroyOutcome.noConfusion h
        · exact (DestroyOutcome.deleted.inj h).symm
  · intro hlock
    refine ⟨?_, ?_⟩
    · simp [destroyFunc, hlock]
    · simp [destroyFunc, hlock, applyDestroy]
  · intro hlock hid
    simp [destroyFunc, hlock, hid, List.contains_cons]

/-- Claim C9 witness: a normal-tier caller who owns nothing and passes no
lock is denied, and the store is unchanged. -/
theorem destroy_requires_delete_lock_witness :
    collab_check player2 obj1 ["delete"] = false
  ∧ destroyFunc player2 callerBody (some obj1) []
      = DestroyOutcome.permDenied
  ∧ applyDestroy w0 (destroyFunc player2 callerBody (some obj1) []) = w0 :=
  ⟨rfl,
   ((destroy_requires_delete_lock w0 player2 callerBody obj1 []).2.1 rfl).1,
   ((destroy_requires_delete_lock w0 player2 callerBody obj1 []).2.1 rfl).2⟩

/-- Claim C10: when the searched target of `CmdDestroy.func` resolves to the
caller's own object, the command refuses with a message — the permission
denial or the suicide refusal — and never deletes, for every ownership
state, privilege tier and switch list (including `force`). -/
theorem destroy_self_refused (w : World) (caller : Actor) (callerObj : GObj)
    (switches : List String) :
    (destroyFunc caller callerObj (some callerObj) switches
        = DestroyOutcome.permDenied
      ∨ destroyFunc caller callerObj (some callerObj) switches
        = DestroyOutcome.suicideRefused)
  ∧ applyDestroy w (destroyFunc caller callerObj (some callerObj) switches)
      = w := by
  cases hlock : collab_check caller callerObj ["delete"]
  · refine ⟨Or.inl ?_, ?_⟩
    · simp [destroyFunc, hlock]
    · simp [destroyFunc, hlock, applyDestroy]
  · refine ⟨Or.inr ?_, ?_⟩
    · simp [destroyFunc, hlock]
    · simp [destroyFunc, hlock, applyDestroy]

/-- Claim C10 witness: an owner of its own body, with the force switch,
still leaves the store unchanged. -/
theorem destroy_self_refused_witness :
    applyDestroy w0 (destroyFunc player2 callerBody (some callerBody)
      ["force"]) = w0 :=
  (destroy_self_refused w0 player2 callerBody ["force"]).2

end Collab

